import Mathlib

/-!
Shallow embedding of `src/src/components/clusterprovider/google/google.ts`
(the Google cluster-provider adapter of vscode-kubernetes-tools).

The adapter is a set of stateless async functions over a `Context` that
bundles a shell executor.  We model the shell as a pure function from
(command string, global invocation index) to an optional subprocess result,
and thread an explicit `Trace` recording the commands executed and the
sleeps performed, so that invocation counts and short-circuiting are
observable in the embedding.

Helper modules imported by the source (`wizard.ts`, `errorable.ts`,
`sleep.ts`, `utils/dictionary.ts`) are not present under src/; the
definitions for those are modelled from the spec and carry a doc comment
saying so.
-/

/-- Result of one subprocess invocation: exit code, stdout and stderr,
as produced by the shell collaborator (`ShellResult` in shell.ts). -/
structure ShellResult where
  code : Int
  stdout : String
  stderr : String
deriving Repr, DecidableEq

/-- The shell collaborator: `run cmd i` is the result of the shell call
issued with command line `cmd` when `i` prior shell calls have been made
(so retries can observe different results), `none` standing for a subprocess
that could not be invoked (a null-ish result in the source).  `isUnix`
mirrors `Shell.isUnix()`. -/
structure Shell where
  run : String → Nat → Option ShellResult
  isUnix : Bool

/-- A JSON value, the image of the platform JSON.parse applied to stdout. -/
inductive JValue where
  | str (s : String)
  | num (n : Int)
  | bool (b : Bool)
  | nullv
  | arr (items : List JValue)
  | obj (fields : List (String × JValue))
deriving Repr

/-- The `Context` given to every adapter operation: shell executor plus the
platform JSON parser (JSON.parse, an environment capability used by the
wizard helpers).  The filesystem capability of the source `Context` is
unused by every operation and omitted. -/
structure Context where
  shell : Shell
  jsonParse : String → Option JValue

/-- Observable effect trace of one adapter call: the command lines executed,
in order, and the sleep durations (ms) performed, in order. -/
structure Trace where
  calls : List String
  sleeps : List Nat
deriving Repr, DecidableEq

/-- The empty trace at the start of an adapter call. -/
def emptyTrace : Trace := { calls := [], sleeps := [] }

/-- One `context.shell.exec(cmd)`: returns the shell's answer for this
invocation index and records the command in the trace. -/
def shExec (ctx : Context) (cmd : String) (t : Trace) : Option ShellResult × Trace :=
  (ctx.shell.run cmd t.calls.length, { t with calls := t.calls ++ [cmd] })

/-- Modelled from the spec: the `sleep(ms)` helper (sleep.ts, not under
src/) suspends for `ms` milliseconds; we record the pause in the trace.
The local `wait(ms)` of google.ts (a setTimeout promise) is recorded the
same way. -/
def doSleep (ms : Nat) (t : Trace) : Trace :=
  { t with sleeps := t.sleeps ++ [ms] }

/-- An error value as it appears on the wire: google.ts stores either a
string (the usual Errorable error) or an array (the `error: []` literal in
configureCluster). -/
inductive ErrorValue where
  | str (s : String)
  | list (xs : List String)
deriving Repr, DecidableEq

/-- Modelled from the spec: the `Errorable<T>` shape of errorable.ts (not
under src/), "tagged union Success{value: T} | Failure{error: string}",
rendered as a JS-style record with a `succeeded` flag and optional
`result` / `error` fields (absent fields are `none`), which also
accommodates the hand-built `{ succeeded, result, error: [] }` object of
configureCluster. -/
structure ResultObj (α : Type) where
  succeeded : Bool
  result : Option α := none
  error : Option ErrorValue := none
deriving Repr, DecidableEq

/-- Success value of an Errorable (`{ succeeded: true, result: v }`). -/
def okRes {α : Type} (v : α) : ResultObj α :=
  { succeeded := true, result := some v }

/-- Failure value of an Errorable (`{ succeeded: false, error: e }`). -/
def errRes {α : Type} (e : String) : ResultObj α :=
  { succeeded := false, error := some (ErrorValue.str e) }

/-- Modelled from the spec: `failed` of errorable.ts (not under src/);
"callers must branch on the success flag", so `failed` is the negation of
the `succeeded` flag. -/
def failed {α : Type} (e : ResultObj α) : Bool :=
  !e.succeeded

/-- Modelled from the spec: the `Diagnostic` payload of wizard.ts (not
under src/); the spec calls it "a diagnostic-only success value (no
payload)". -/
abbrev Diagnostic := Unit

/-- The `ActionResult<T>` envelope of wizard.ts: a human-readable
description of the attempted action paired with its Errorable outcome. -/
structure ActionResult (α : Type) where
  actionDescription : String
  result : ResultObj α
deriving Repr, DecidableEq

/-- Field lookup on a JSON object (`r.name` on a parsed value): first
binding wins, `none` when the field is absent or the value is not an
object. -/
def jGetField (j : JValue) (k : String) : Option JValue :=
  match j with
  | JValue.obj fields => (fields.find? (fun p => p.1 == k)).map (fun p => p.2)
  | _ => none

/-- Items of a JSON array; the source casts the parsed value to `any[]`
without checking, so a non-array (which would throw at runtime in JS) is
rendered as the empty list and never arises under the well-formedness
hypotheses of the theorems below. -/
def jItems : JValue → List JValue
  | JValue.arr xs => xs
  | _ => []

/-- String content of the field `k` of a JSON object (`r.name as string`):
the cast in the source is unchecked, so a missing or non-string field
(never produced under the theorems' hypotheses) is rendered as "". -/
def jStringField (j : JValue) (k : String) : String :=
  match jGetField j k with
  | some (JValue.str s) => s
  | _ => ""

/-- Modelled from the spec: `fromShellExitCodeAndStandardError` of
wizard.ts (not under src/): "success is determined by zero exit code AND
empty standard-error"; on failure, a Failure "with a fixed descriptive
prefix plus raw stderr"; an uninvocable subprocess yields the fixed
message alone. -/
def fromShellExitCodeAndStandardError (sr : Option ShellResult) (msg : String) :
    ResultObj Diagnostic :=
  match sr with
  | some r =>
      if r.code = 0 ∧ r.stderr = "" then okRes ()
      else errRes (msg ++ ": " ++ r.stderr)
  | none => errRes msg

/-- Modelled from the spec: `fromShellExitCodeOnly` of wizard.ts (not
under src/): "success is determined by exit code alone (standard-error
content is not inspected here)". -/
def fromShellExitCodeOnly (sr : Option ShellResult) (msg : String) :
    ResultObj Diagnostic :=
  match sr with
  | some r =>
      if r.code = 0 then okRes ()
      else errRes (msg ++ ": " ++ r.stderr)
  | none => errRes msg

/-- Modelled from the spec: `fromShellJson<T>` of wizard.ts (not under
src/): a subprocess-derived value is valid when the exit code is zero and
stdout parses as JSON, in which case the processor shapes the parsed
value; otherwise a Failure with a fixed descriptive prefix ("detail
swallowed" for parse failures, stderr appended for nonzero exit). -/
def fromShellJson {α : Type} (parse : String → Option JValue)
    (sr : Option ShellResult) (msg : String) (processor : JValue → α) :
    ResultObj α :=
  match sr with
  | some r =>
      if r.code = 0 then
        match parse r.stdout with
        | some j => okRes (processor j)
        | none => errRes msg
      else errRes (msg ++ ": " ++ r.stderr)
  | none => errRes msg

/-- ServiceLocation of google.ts; `displayName` is declared `string` but
is the raw result of a dictionary lookup, so it can be undefined at
runtime — modelled as an Option. -/
structure ServiceLocation where
  displayName : Option String
  isPreview : Bool
deriving Repr, DecidableEq

/-- ClusterInfo of google.ts, parsed directly from subprocess JSON. -/
structure ClusterInfo where
  name : String
  resourceGroup : String
deriving Repr, DecidableEq

/-- The Locations wrapper of google.ts: the name-to-displayName mapping
built from the list-locations output (`locations` is `any` in the source;
here the dictionary is an insertion-ordered association list). -/
structure Locations where
  locations : List (String × String)
deriving Repr, DecidableEq

/-- The object literal configureCluster builds: the declared
ConfigureResult interface has more fields, but only these three are set.
`credentialsError` is undefined on success — modelled as an Option. -/
structure ConfigureResult where
  clusterType : String
  gotCredentials : Bool
  credentialsError : Option String
deriving Repr, DecidableEq

/-- WaitResult of google.ts (`stillWaiting?: boolean`). -/
structure WaitResult where
  stillWaiting : Option Bool
deriving Repr, DecidableEq

/-- The value getCredentials resolves to (`any` in the source): a
`succeeded` flag, plus an `error` field set only on failure. -/
structure CredResult where
  succeeded : Bool
  error : Option String
deriving Repr, DecidableEq

/-- The `options.metadata` bag consumed by execCreateClusterCmd. -/
structure ClusterMetadata where
  clusterName : String
  location : String
deriving Repr, DecidableEq

/-- The `options` bag (`any` in the source) consumed by createCluster. -/
structure CreateOptions where
  project : String
  metadata : ClusterMetadata
deriving Repr, DecidableEq

/-- JS object assignment `d[k] = v` on the locations dictionary: overwrite
the binding when the key exists, append otherwise. -/
def dictInsert (d : List (String × String)) (k v : String) :
    List (String × String) :=
  if d.any (fun p => p.1 == k) then
    d.map (fun p => if p.1 == k then (k, v) else p)
  else d ++ [(k, v)]

/-- JS object read `d[k]`: the bound value, or undefined (`none`) when the
key is absent. -/
def dictLookup (d : List (String × String)) (k : String) : Option String :=
  (d.find? (fun p => p.1 == k)).map (fun p => p.2)

/-- Command line of listProjectsAsync. -/
def listProjectsCmd : String := "gcloud projects list"

/-- Command line of setProjectAsync for a given project. -/
def setProjectCmd (project : String) : String :=
  "gcloud config set project \"" ++ project ++ "\""

/-- Command line of listClustersAsync. -/
def listClustersCmd : String := "gcloud container clusters list"

/-- The `--query` payload of listLocations before quoting. -/
def locationsQueryBase : String := "[].\x7bname:name,displayName:displayName\x7d"

/-- Command line of listLocations: the query is wrapped in single quotes
on Unix-like shells. -/
def listLocationsCmd (isUnix : Bool) : String :=
  let query := if isUnix then "'" ++ locationsQueryBase ++ "'" else locationsQueryBase
  "az account list-locations --query " ++ query ++ " -ojson"

/-- Command line of listVMSizes for a given location. -/
def vmSizesCmd (location : String) : String :=
  "az vm list-sizes -l \"" ++ location ++ "\" -ojson"

/-- Command line of execCreateClusterCmd (the source template ends in a
space). -/
def createClusterCmd (clusterName location : String) : String :=
  "gcloud container clusters create \"" ++ clusterName ++ "\" --zone \"" ++
    location ++ "\" --async "

/-- Command line of the getCredentials loop body. -/
def credCmd (clusterName : String) : String :=
  "gcloud container clusters get-credentials " ++ clusterName

/-- listProjectsAsync: exec "gcloud projects list", parse stdout as a JSON
array of strings (the unchecked `JSON.parse as string[]` cast is rendered
by extracting the string items). -/
def listProjectsAsync (ctx : Context) (t : Trace) :
    ResultObj (List String) × Trace :=
  match shExec ctx listProjectsCmd t with
  | (sr, t1) =>
      (fromShellJson ctx.jsonParse sr "Unable to list Google projects"
        (fun j => (jItems j).map (fun x =>
          match x with
          | JValue.str s => s
          | _ => "")), t1)

/-- getProjectList: wraps listProjectsAsync in an ActionResult labelled
"listing projects". -/
def getProjectList (ctx : Context) (t : Trace) :
    ActionResult (List String) × Trace :=
  match listProjectsAsync ctx t with
  | (projects, t1) =>
      ({ actionDescription := "listing projects", result := projects }, t1)

/-- setProjectAsync: exec the set-project command and judge it by exit
code AND stderr. -/
def setProjectAsync (ctx : Context) (project : String) (t : Trace) :
    ResultObj Diagnostic × Trace :=
  match shExec ctx (setProjectCmd project) t with
  | (sr, t1) =>
      (fromShellExitCodeAndStandardError sr "Unable to set gcloud CLI project", t1)

/-- The unchecked `JSON.parse as ClusterInfo[]` cast of listClustersAsync,
reading the `name` and `resourceGroup` fields of each array item. -/
def decodeClusterInfos (j : JValue) : List ClusterInfo :=
  (jItems j).map (fun r =>
    { name := jStringField r "name", resourceGroup := jStringField r "resourceGroup" })

/-- listClustersAsync: exec the list command, parse stdout as a JSON array
of ClusterInfo. -/
def listClustersAsync (ctx : Context) (t : Trace) :
    ResultObj (List ClusterInfo) × Trace :=
  match shExec ctx listClustersCmd t with
  | (sr, t1) =>
      (fromShellJson ctx.jsonParse sr "Unable to list Kubernetes clusters"
        decodeClusterInfos, t1)

/-- getClusterList: set the project first; on failure return the
"logging into project" envelope carrying the login error and stop; else
list the clusters under "listing clusters". -/
def getClusterList (ctx : Context) (project : String) (t : Trace) :
    ActionResult (List ClusterInfo) × Trace :=
  match setProjectAsync ctx project t with
  | (login, t1) =>
      if failed login then
        ({ actionDescription := "logging into project",
           result := { succeeded := false, error := login.error } }, t1)
      else
        match listClustersAsync ctx t1 with
        | (clusters, t2) =>
            ({ actionDescription := "listing clusters", result := clusters }, t2)

/-- The listLocations processor: fold the parsed array into a
name-to-displayName dictionary (`locations[r.name] = r.displayName`). -/
def foldLocations (items : List JValue) : List (String × String) :=
  items.foldl (fun d r => dictInsert d (jStringField r "name") (jStringField r "displayName")) []

/-- listLocations: exec the az list-locations command (quoting the query
on Unix) and fold the JSON array into a Locations mapping. -/
def listLocations (ctx : Context) (t : Trace) : ResultObj Locations × Trace :=
  match shExec ctx (listLocationsCmd ctx.shell.isUnix) t with
  | (sr, t1) =>
      (fromShellJson ctx.jsonParse sr "Unable to list Google regions"
        (fun j => { locations := foldLocations (jItems j) }), t1)

/-- The hardwired production region identifiers of listGkeLocations. -/
def productionRegions : List String :=
  ["australiaeast", "australiasoutheast", "canadacentral", "canadaeast",
   "centralindia", "centralus", "eastasia", "eastus", "eastus2",
   "francecentral", "japaneast", "northeurope", "southeastasia",
   "southindia", "uksouth", "ukwest", "westeurope", "westus", "westus2"]

/-- locationDisplayNames: map each region identifier to a ServiceLocation
whose displayName is the (possibly undefined) dictionary lookup. -/
def locationDisplayNames (names : List String) (preview : Bool)
    (locationInfo : Locations) : List ServiceLocation :=
  names.map (fun n =>
    { displayName := dictLookup locationInfo.locations n, isPreview := preview })

/-- locationDisplayNamesEx: production entries (isPreview false) followed
by preview entries (isPreview true). -/
def locationDisplayNamesEx (production preview : List String)
    (locationInfo : Locations) : List ServiceLocation :=
  locationDisplayNames production false locationInfo ++
    locationDisplayNames preview true locationInfo

/-- listGkeLocations: fetch the region mapping; on failure propagate the
same error; on success map the hardwired production list (preview list
empty) through locationDisplayNamesEx. -/
def listGkeLocations (ctx : Context) (t : Trace) :
    ResultObj (List ServiceLocation) × Trace :=
  match listLocations ctx t with
  | (locationInfo, t1) =>
      if failed locationInfo then
        ({ succeeded := false, error := locationInfo.error }, t1)
      else
        match locationInfo.result with
        | some locations =>
            (okRes (locationDisplayNamesEx productionRegions [] locations), t1)
        | none =>
            -- unreachable for values produced by listLocations: a
            -- non-failed Errorable carries its result
            (okRes (locationDisplayNamesEx productionRegions []
              { locations := [] }), t1)

/-- listVMSizes: exec the az list-sizes command, parse stdout as a JSON
array, take each item's `name` and drop those starting with "Basic_". -/
def listVMSizes (ctx : Context) (location : String) (t : Trace) :
    ResultObj (List String) × Trace :=
  match shExec ctx (vmSizesCmd location) t with
  | (sr, t1) =>
      (fromShellJson ctx.jsonParse sr "Unable to list VM sizes"
        (fun j => ((jItems j).map (fun r => jStringField r "name")).filter
          (fun name => !name.startsWith "Basic_")), t1)

/-- execCreateClusterCmd: exec the async create command and judge it by
exit code only. -/
def execCreateClusterCmd (ctx : Context) (options : CreateOptions) (t : Trace) :
    ResultObj Diagnostic × Trace :=
  match shExec ctx (createClusterCmd options.metadata.clusterName options.metadata.location) t with
  | (sr, t1) =>
      (fromShellExitCodeOnly sr "Unable to call Gcloud CLI to create cluster", t1)

/-- createCluster: set the project first; on failure return the
"logging into project" envelope carrying the login result and stop; else
issue the create command under "creating cluster". -/
def createCluster (ctx : Context) (options : CreateOptions) (t : Trace) :
    ActionResult Diagnostic × Trace :=
  match setProjectAsync ctx options.project t with
  | (login, t1) =>
      if !login.succeeded then
        ({ actionDescription := "logging into project", result := login }, t1)
      else
        match execCreateClusterCmd ctx options t1 with
        | (cc, t2) =>
            ({ actionDescription := "creating cluster", result := cc }, t2)

/-- waitForCluster: a fixed five-minute pause (`wait(300 * 1000)`), no
shell invocation, then success with stillWaiting false. -/
def waitForCluster (ctx : Context) (clusterName : String) (t : Trace) :
    ResultObj WaitResult × Trace :=
  (okRes { stillWaiting := some false }, doSleep (300 * 1000) t)

/-- The success test of the getCredentials loop body on one shell answer:
`sr && sr.code === 0 && !sr.stderr`. -/
def srOk (sr : Option ShellResult) : Bool :=
  match sr with
  | some r => r.code == 0 && r.stderr == ""
  | none => false

/-- The getCredentials while-loop, entered having already made `attempts`
attempts: make the next attempt; on success stop; while attempts remain
sleep 15000 ms and retry; on exhaustion fail with the last stderr (or the
fixed message when the subprocess result is absent). -/
def getCredentialsGo (ctx : Context) (clusterName : String)
    (maxAttempts attempts : Nat) (t : Trace) : CredResult × Trace :=
  match shExec ctx (credCmd clusterName) t with
  | (sr, t1) =>
      if srOk sr then
        ({ succeeded := true, error := none }, t1)
      else if h : attempts + 1 < maxAttempts then
        getCredentialsGo ctx clusterName maxAttempts (attempts + 1) (doSleep 15000 t1)
      else
        ({ succeeded := false,
           error := some (match sr with
                          | some r => r.stderr
                          | none => "Unable to invoke gcloud CLI") }, t1)
termination_by maxAttempts - attempts
decreasing_by omega

/-- getCredentials: the bounded-retry credential fetch, starting with zero
attempts made. -/
def getCredentials (ctx : Context) (clusterName : String) (maxAttempts : Nat)
    (t : Trace) : CredResult × Trace :=
  getCredentialsGo ctx clusterName maxAttempts 0 t

/-- configureCluster: run getCredentials with maxAttempts 5, then wrap the
outcome in a ConfigureResult under "configuring Kubernetes"; the envelope
result's error field is the literal empty array of the source. -/
def configureCluster (ctx : Context) (clusterType clusterName : String)
    (t : Trace) : ActionResult ConfigureResult × Trace :=
  match getCredentials ctx clusterName 5 t with
  | (credsResult, t1) =>
      let result : ConfigureResult :=
        { clusterType := clusterType,
          gotCredentials := credsResult.succeeded,
          credentialsError := credsResult.error }
      ({ actionDescription := "configuring Kubernetes",
         result := { succeeded := credsResult.succeeded,
                     result := some result,
                     error := some (ErrorValue.list []) } }, t1)

/-! ## Test fixtures (concrete contexts for witnesses and counterexamples) -/

/-- A context whose shell always yields the same result and whose JSON
parser always fails (sufficient for claims that never parse stdout). -/
def constCtx (r : Option ShellResult) : Context :=
  { shell := { run := fun _ _ => r, isUnix := false }, jsonParse := fun _ => none }

/-- A context whose shell yields the listed results in order (and `none`
after the list is exhausted), JSON parser always failing. -/
def seqCtx (rs : List (Option ShellResult)) : Context :=
  { shell := { run := fun _ i => rs.getD i none, isUnix := false },
    jsonParse := fun _ => none }

/-- A shell result with exit code 0 and empty stderr. -/
def srPass : ShellResult := { code := 0, stdout := "", stderr := "" }

/-- A shell result with exit code 1 and stderr "boom". -/
def srBoom : ShellResult := { code := 1, stdout := "", stderr := "boom" }

/-- A shell result with exit code 0 but non-empty stderr. -/
def srWarn : ShellResult := { code := 0, stdout := "", stderr := "warning" }

/-! ## Theorems -/

/-- C9: waitForCluster performs no shell invocation and no polling — its
only effect is a single fixed 300000 ms (five-minute) pause — and it
always returns success with stillWaiting false. -/
theorem waitForCluster_fixed_pause (ctx : Context) (clusterName : String) (t : Trace) :
    waitForCluster ctx clusterName t =
      ({ succeeded := true, result := some { stillWaiting := some false }, error := none },
       { calls := t.calls, sleeps := t.sleeps ++ [300000] }) := rfl

/-- C7: configureCluster delegates to getCredentials with maxAttempts 5
and mirrors its outcome: the envelope result's succeeded flag equals the
credential fetch's succeeded flag, and the ConfigureResult payload carries
the given clusterType, gotCredentials equal to that flag, and
credentialsError equal to the credential fetch's error. -/
theorem configureCluster_mirrors_getCredentials (ctx : Context)
    (clusterType clusterName : String) :
    configureCluster ctx clusterType clusterName emptyTrace =
      ({ actionDescription := "configuring Kubernetes",
         result := { succeeded := (getCredentials ctx clusterName 5 emptyTrace).1.succeeded,
                     result := some { clusterType := clusterType,
                                      gotCredentials := (getCredentials ctx clusterName 5 emptyTrace).1.succeeded,
                                      credentialsError := (getCredentials ctx clusterName 5 emptyTrace).1.error },
                     error := some (ErrorValue.list []) } },
       (getCredentials ctx clusterName 5 emptyTrace).2) := rfl

/-- C10: the envelope-level error field of configureCluster's result is
always the empty array — even when the credential fetch failed — so a
caller reading the envelope error sees no error string; the failure text
lives only in the payload's credentialsError. -/
theorem configureCluster_envelope_error_empty (ctx : Context)
    (clusterType clusterName : String) :
    (configureCluster ctx clusterType clusterName emptyTrace).1.result.error =
      some (ErrorValue.list []) ∧
    (configureCluster ctx clusterType clusterName emptyTrace).1.result.result =
      some { clusterType := clusterType,
             gotCredentials := (getCredentials ctx clusterName 5 emptyTrace).1.succeeded,
             credentialsError := (getCredentials ctx clusterName 5 emptyTrace).1.error } :=
  ⟨rfl, rfl⟩

/-- C3: setProjectAsync succeeds exactly when the shell result has exit
code 0 AND empty stderr; in every other case (nonzero exit code, or
non-empty stderr even with exit code 0) it is a Failure. -/
theorem setProjectAsync_success_iff (ctx : Context) (project : String)
    (r : ShellResult) (h : ctx.shell.run (setProjectCmd project) 0 = some r) :
    ((setProjectAsync ctx project emptyTrace).1.succeeded = true ↔
      (r.code = 0 ∧ r.stderr = "")) := by
  have hval : (setProjectAsync ctx project emptyTrace).1 =
      fromShellExitCodeAndStandardError (some r) "Unable to set gcloud CLI project" := by
    simp [setProjectAsync, shExec, emptyTrace, h]
  rw [hval, fromShellExitCodeAndStandardError]
  split
  · simp_all [okRes]
  · simp_all [errRes]

/-- Witness for C3: a shell result with exit code 0 but stderr "warning"
makes setProjectAsync fail. -/
theorem setProjectAsync_success_iff_witness :
    ((setProjectAsync (constCtx (some srWarn)) "p" emptyTrace).1.succeeded = true ↔
      (srWarn.code = 0 ∧ srWarn.stderr = "")) :=
  setProjectAsync_success_iff (constCtx (some srWarn)) "p" srWarn rfl

/-- C2: when setProjectAsync fails, getClusterList and createCluster both
return the "logging into project" envelope carrying that same error, and
the only shell command ever executed is the set-project one — the
list-clusters / create-cluster command is never invoked. -/
theorem loginFailure_short_circuits (ctx : Context) (project : String)
    (md : ClusterMetadata)
    (h : (setProjectAsync ctx project emptyTrace).1.succeeded = false) :
    getClusterList ctx project emptyTrace =
      ({ actionDescription := "logging into project",
         result := { succeeded := false, result := none,
                     error := (setProjectAsync ctx project emptyTrace).1.error } },
       { calls := [setProjectCmd project], sleeps := [] }) ∧
    createCluster ctx { project := project, metadata := md } emptyTrace =
      ({ actionDescription := "logging into project",
         result := (setProjectAsync ctx project emptyTrace).1 },
       { calls := [setProjectCmd project], sleeps := [] }) := by
  cases hsr : ctx.shell.run (setProjectCmd project) 0 with
  | none =>
      simp [getClusterList, createCluster, setProjectAsync, shExec, emptyTrace,
        failed, fromShellExitCodeAndStandardError, errRes, hsr]
  | some r =>
      by_cases hc : r.code = 0 ∧ r.stderr = ""
      · exfalso
        simp [setProjectAsync, shExec, emptyTrace, hsr,
          fromShellExitCodeAndStandardError, hc, okRes] at h
      · simp [getClusterList, createCluster, setProjectAsync, shExec, emptyTrace,
          failed, fromShellExitCodeAndStandardError, errRes, hsr, hc]

/-- Witness for C2: with a shell that always reports exit code 1 and
stderr "boom", both operations stop after the single set-project call. -/
theorem loginFailure_short_circuits_witness :
    getClusterList (constCtx (some srBoom)) "p" emptyTrace =
      ({ actionDescription := "logging into project",
         result := { succeeded := false, result := none,
                     error := (setProjectAsync (constCtx (some srBoom)) "p" emptyTrace).1.error } },
       { calls := [setProjectCmd "p"], sleeps := [] }) ∧
    createCluster (constCtx (some srBoom))
        { project := "p", metadata := { clusterName := "c", location := "z" } } emptyTrace =
      ({ actionDescription := "logging into project",
         result := (setProjectAsync (constCtx (some srBoom)) "p" emptyTrace).1 },
       { calls := [setProjectCmd "p"], sleeps := [] }) :=
  loginFailure_short_circuits (constCtx (some srBoom)) "p"
    { clusterName := "c", location := "z" } (by decide)

/-- C8: After a successful setProjectAsync, createCluster is labelled
"creating cluster" and its outcome is decided by the exit code of the
create-cluster command alone: success exactly when the exit code is 0,
whatever stderr holds. -/
theorem createCluster_exit_code_only (ctx : Context) (options : CreateOptions)
    (h : (setProjectAsync ctx options.project emptyTrace).1.succeeded = true) :
    (createCluster ctx options emptyTrace).1.actionDescription = "creating cluster" ∧
    ((createCluster ctx options emptyTrace).1.result.succeeded = true ↔
      (∃ r, ctx.shell.run
          (createClusterCmd options.metadata.clusterName options.metadata.location) 1 =
            some r ∧ r.code = 0)) := by
  cases hsr : ctx.shell.run (setProjectCmd options.project) 0 with
  | none =>
      exfalso
      simp [setProjectAsync, shExec, emptyTrace, hsr,
        fromShellExitCodeAndStandardError, errRes] at h
  | some r =>
      by_cases hc : r.code = 0 ∧ r.stderr = ""
      · cases hcr : ctx.shell.run
            (createClusterCmd options.metadata.clusterName options.metadata.location) 1 with
        | none =>
            simp [createCluster, setProjectAsync, shExec, emptyTrace, hsr,
              fromShellExitCodeAndStandardError, hc, okRes, errRes,
              execCreateClusterCmd, fromShellExitCodeOnly, hcr]
        | some cr =>
            by_cases hcc : cr.code = 0
            · simp [createCluster, setProjectAsync, shExec, emptyTrace, hsr,
                fromShellExitCodeAndStandardError, hc, okRes, errRes,
                execCreateClusterCmd, fromShellExitCodeOnly, hcr, hcc]
            · simp [createCluster, setProjectAsync, shExec, emptyTrace, hsr,
                fromShellExitCodeAndStandardError, hc, okRes, errRes,
                execCreateClusterCmd, fromShellExitCodeOnly, hcr, hcc]
      · exfalso
        simp [setProjectAsync, shExec, emptyTrace, hsr,
          fromShellExitCodeAndStandardError, hc, errRes] at h

/-- Witness for C8: a shell that always passes lets createCluster succeed
under the "creating cluster" label. -/
theorem createCluster_exit_code_only_witness :
    (createCluster (constCtx (some srPass))
        { project := "p", metadata := { clusterName := "c", location := "z" } }
        emptyTrace).1.actionDescription = "creating cluster" ∧
    ((createCluster (constCtx (some srPass))
        { project := "p", metadata := { clusterName := "c", location := "z" } }
        emptyTrace).1.result.succeeded = true ↔
      (∃ r, (constCtx (some srPass)).shell.run (createClusterCmd "c" "z") 1 =
          some r ∧ r.code = 0)) :=
  createCluster_exit_code_only (constCtx (some srPass))
    { project := "p", metadata := { clusterName := "c", location := "z" } } (by decide)

/-- When every item's `name` field is the string given by `names`
(positionally), extracting the name strings gives exactly `names`. -/
theorem map_jStringField_of_names (items : List JValue) (names : List String)
    (h : items.map (fun j => jGetField j "name") =
      names.map (fun s => some (JValue.str s))) :
    items.map (fun j => jStringField j "name") = names := by
  induction items generalizing names with
  | nil => cases names <;> simp_all
  | cons j js ih =>
      cases names with
      | nil => simp_all
      | cons n ns =>
          simp only [List.map_cons, List.cons.injEq] at h
          simp only [List.map_cons, List.cons.injEq]
          exact ⟨by simp [jStringField, h.1], ih ns h.2⟩

/-- C5: when the shell answers the list-sizes command with exit code 0 and
stdout parsing as a JSON array whose items carry the string names `names`,
listVMSizes succeeds with exactly those names in order minus the ones
starting with "Basic_", and no returned name starts with "Basic_". -/
theorem listVMSizes_filters_basic (ctx : Context) (location : String)
    (r : ShellResult) (items : List JValue) (names : List String)
    (hrun : ctx.shell.run (vmSizesCmd location) 0 = some r)
    (hcode : r.code = 0)
    (hparse : ctx.jsonParse r.stdout = some (JValue.arr items))
    (hnames : items.map (fun j => jGetField j "name") =
      names.map (fun s => some (JValue.str s))) :
    (listVMSizes ctx location emptyTrace).1 =
      okRes (names.filter (fun n => !n.startsWith "Basic_")) ∧
    ∀ n ∈ ((listVMSizes ctx location emptyTrace).1.result.getD []),
      n.startsWith "Basic_" = false := by
  have hmap := map_jStringField_of_names items names hnames
  have h1 : (listVMSizes ctx location emptyTrace).1 =
      okRes (names.filter (fun n => !n.startsWith "Basic_")) := by
    simp [listVMSizes, shExec, emptyTrace, hrun, fromShellJson, hcode, hparse,
      jItems, hmap]
  refine ⟨h1, ?_⟩
  rw [h1]
  intro n hn
  simp only [okRes, Option.getD_some] at hn
  have := (List.mem_filter.1 hn).2
  simpa using this

/-- The JSON answer of the mock list-sizes shell: two entries, one
basic-tier. -/
def vmJson : JValue :=
  JValue.arr [JValue.obj [("name", JValue.str "Basic_A0")],
              JValue.obj [("name", JValue.str "Standard_D1")]]

/-- A context whose shell always succeeds with stdout "sizes" that parses
as `vmJson`. -/
def ctxVm : Context :=
  { shell := { run := fun _ _ => some { code := 0, stdout := "sizes", stderr := "" },
               isUnix := false },
    jsonParse := fun s => if s == "sizes" then some vmJson else none }

/-- Witness for C5: the basic-tier size is dropped and the standard one
kept. -/
theorem listVMSizes_filters_basic_witness :
    (listVMSizes ctxVm "loc" emptyTrace).1 =
      okRes ((["Basic_A0", "Standard_D1"]).filter (fun n => !n.startsWith "Basic_")) ∧
    ∀ n ∈ ((listVMSizes ctxVm "loc" emptyTrace).1.result.getD []),
      n.startsWith "Basic_" = false :=
  listVMSizes_filters_basic ctxVm "loc" { code := 0, stdout := "sizes", stderr := "" }
    [JValue.obj [("name", JValue.str "Basic_A0")],
     JValue.obj [("name", JValue.str "Standard_D1")]]
    ["Basic_A0", "Standard_D1"] rfl rfl rfl rfl

/-- C6: when the fetched region mapping is `d`, listGkeLocations succeeds
with one entry per hardwired production region, in order — so nothing is
filtered out and no error is raised — and every production region absent
from `d` contributes a ServiceLocation with undefined displayName and
isPreview false. -/
theorem listGkeLocations_missing_regions (ctx : Context)
    (d : List (String × String))
    (h : (listLocations ctx emptyTrace).1 = okRes { locations := d }) :
    (listGkeLocations ctx emptyTrace).1.succeeded = true ∧
    (listGkeLocations ctx emptyTrace).1.result =
      some (productionRegions.map (fun n =>
        { displayName := dictLookup d n, isPreview := false })) ∧
    ∀ n ∈ productionRegions, dictLookup d n = none →
      ({ displayName := none, isPreview := false } : ServiceLocation) ∈
        ((listGkeLocations ctx emptyTrace).1.result.getD []) := by
  rcases hp : listLocations ctx emptyTrace with ⟨li, t1⟩
  rw [hp] at h
  simp only at h
  have hg : (listGkeLocations ctx emptyTrace).1 =
      okRes (productionRegions.map (fun n =>
        { displayName := dictLookup d n, isPreview := false })) := by
    simp [listGkeLocations, hp, h, failed, okRes, locationDisplayNamesEx,
      locationDisplayNames]
  refine ⟨by rw [hg]; rfl, by rw [hg]; rfl, ?_⟩
  intro n hn hnone
  rw [hg]
  simp only [okRes, Option.getD_some]
  exact List.mem_map.2 ⟨n, hn, by simp [hnone]⟩

/-- The JSON answer of the mock list-locations shell: the region mapping
holding exactly eastus ↦ East US. -/
def locJson : JValue :=
  JValue.arr [JValue.obj [("name", JValue.str "eastus"),
                          ("displayName", JValue.str "East US")]]

/-- A context whose shell always succeeds with stdout "locs" that parses
as `locJson`. -/
def ctxLoc : Context :=
  { shell := { run := fun _ _ => some { code := 0, stdout := "locs", stderr := "" },
               isUnix := false },
    jsonParse := fun s => if s == "locs" then some locJson else none }

/-- Witness for C6: with the mapping holding only eastus, every other
production region yields an undefined-displayName entry. -/
theorem listGkeLocations_missing_regions_witness :
    (listGkeLocations ctxLoc emptyTrace).1.succeeded = true ∧
    (listGkeLocations ctxLoc emptyTrace).1.result =
      some (productionRegions.map (fun n =>
        { displayName := dictLookup [("eastus", "East US")] n, isPreview := false })) ∧
    ∀ n ∈ productionRegions, dictLookup [("eastus", "East US")] n = none →
      ({ displayName := none, isPreview := false } : ServiceLocation) ∈
        ((listGkeLocations ctxLoc emptyTrace).1.result.getD []) :=
  listGkeLocations_missing_regions ctxLoc [("eastus", "East US")] rfl

/-- Counterexample to C4 as stated: with the region mapping holding
exactly eastus ↦ East US, listGkeLocations succeeds but does NOT return a
single ServiceLocation — it returns one entry per hardwired production
region (19 of them), with undefined displayName for the 18 regions absent
from the mapping. -/
theorem listGkeLocations_not_single :
    (listGkeLocations ctxLoc emptyTrace).1.succeeded = true ∧
    (listGkeLocations ctxLoc emptyTrace).1.result ≠
      some [{ displayName := some "East US", isPreview := false }] ∧
    ((listGkeLocations ctxLoc emptyTrace).1.result.getD []).length = 19 := by
  refine ⟨by decide, by decide, by decide⟩

/-- C4 amended: with the region mapping holding exactly eastus ↦ East US,
listGkeLocations succeeds with one entry per hardwired production region
in order — the eastus entry being ⟨East US, not preview⟩ and every other
entry having undefined displayName and isPreview false — and whenever the
underlying list-locations call fails, listGkeLocations returns a Failure
carrying the same error. -/
theorem listGkeLocations_eastus_mapping (ctx : Context) :
    (∀ r, ctx.shell.run (listLocationsCmd ctx.shell.isUnix) 0 = some r →
      r.code = 0 →
      ctx.jsonParse r.stdout = some locJson →
      (listGkeLocations ctx emptyTrace).1 =
        okRes (productionRegions.map (fun n =>
          { displayName := if n == "eastus" then some "East US" else none,
            isPreview := false }))) ∧
    ((listLocations ctx emptyTrace).1.succeeded = false →
      (listGkeLocations ctx emptyTrace).1 =
        { succeeded := false, result := none,
          error := (listLocations ctx emptyTrace).1.error }) := by
  constructor
  · intro r hrun hcode hparse
    have hloc : (listLocations ctx emptyTrace).1 =
        okRes { locations := [("eastus", "East US")] } := by
      simp [listLocations, shExec, emptyTrace, hrun, fromShellJson, hcode, hparse]
      rfl
    rcases hp : listLocations ctx emptyTrace with ⟨li, t1⟩
    rw [hp] at hloc
    simp only at hloc
    simp [listGkeLocations, hp, hloc, failed, okRes, locationDisplayNamesEx,
      locationDisplayNames]
    decide
  · intro hfail
    rcases hp : listLocations ctx emptyTrace with ⟨li, t1⟩
    rw [hp] at hfail
    simp only at hfail
    simp [listGkeLocations, hp, failed, hfail]

/-- Witness for the amended C4: the success branch at the concrete
eastus-only context, and the failure branch at an always-failing shell. -/
theorem listGkeLocations_eastus_mapping_witness :
    (listGkeLocations ctxLoc emptyTrace).1 =
      okRes (productionRegions.map (fun n =>
        { displayName := if n == "eastus" then some "East US" else none,
          isPreview := false })) ∧
    (listGkeLocations (constCtx (some srBoom)) emptyTrace).1 =
      { succeeded := false, result := none,
        error := (listLocations (constCtx (some srBoom)) emptyTrace).1.error } :=
  ⟨(listGkeLocations_eastus_mapping ctxLoc).1
      { code := 0, stdout := "locs", stderr := "" } rfl rfl rfl,
   (listGkeLocations_eastus_mapping (constCtx (some srBoom))).2 (by decide)⟩

/-- The success test of attempt `i + 1` of the credential loop: what the
shell answers the get-credentials command at global invocation index `i`,
judged by `srOk`. -/
def credOk (ctx : Context) (cn : String) (i : Nat) : Bool :=
  srOk (ctx.shell.run (credCmd cn) i)

/-- The trace of the credential loop after `calls` attempts and `sleeps`
pauses: that many copies of the get-credentials command and of the fixed
15000 ms interval. -/
def credTrace (cn : String) (calls sleeps : Nat) : Trace :=
  { calls := List.replicate calls (credCmd cn),
    sleeps := List.replicate sleeps 15000 }

/-- Loop body, success case: a passing shell answer ends the loop at once
with one more invocation and no sleep. -/
theorem getCredentialsGo_succ (ctx : Context) (cn : String) (ma a : Nat) (t : Trace)
    (h : srOk (ctx.shell.run (credCmd cn) t.calls.length) = true) :
    getCredentialsGo ctx cn ma a t =
      ({ succeeded := true, error := none },
       { t with calls := t.calls ++ [credCmd cn] }) := by
  rw [getCredentialsGo]
  simp [shExec, h]

/-- Loop body, retry case: a failing answer with attempts remaining
records the invocation and a 15000 ms sleep and re-enters the loop. -/
theorem getCredentialsGo_retry (ctx : Context) (cn : String) (ma a : Nat) (t : Trace)
    (h : srOk (ctx.shell.run (credCmd cn) t.calls.length) = false)
    (hlt : a + 1 < ma) :
    getCredentialsGo ctx cn ma a t =
      getCredentialsGo ctx cn ma (a + 1)
        { calls := t.calls ++ [credCmd cn], sleeps := t.sleeps ++ [15000] } := by
  conv_lhs => rw [getCredentialsGo]
  simp [shExec, doSleep, h, hlt]

/-- Loop body, exhaustion case: a failing answer with no attempts left
ends the loop, carrying the last stderr (or the fixed message when the
subprocess result is absent). -/
theorem getCredentialsGo_stop (ctx : Context) (cn : String) (ma a : Nat) (t : Trace)
    (h : srOk (ctx.shell.run (credCmd cn) t.calls.length) = false)
    (hge : ¬ a + 1 < ma) :
    getCredentialsGo ctx cn ma a t =
      ({ succeeded := false,
         error := some (match ctx.shell.run (credCmd cn) t.calls.length with
                        | some r => r.stderr
                        | none => "Unable to invoke gcloud CLI") },
       { t with calls := t.calls ++ [credCmd cn] }) := by
  rw [getCredentialsGo]
  simp [shExec, h, hge]

/-- Step lemma over canonical traces: a failed attempt `i + 1` with
attempts remaining moves from the `i`-attempt trace to the
`(i+1)`-attempt trace. -/
theorem credStep (ctx : Context) (cn : String) (ma i : Nat)
    (h : credOk ctx cn i = false) (hlt : i + 1 < ma) :
    getCredentialsGo ctx cn ma i (credTrace cn i i) =
      getCredentialsGo ctx cn ma (i + 1) (credTrace cn (i + 1) (i + 1)) := by
  have hl : (credTrace cn i i).calls.length = i := by simp [credTrace]
  rw [getCredentialsGo_retry ctx cn ma i (credTrace cn i i) (by rw [hl]; exact h) hlt]
  congr 1
  simp [credTrace, List.replicate_succ']

/-- Success lemma over canonical traces: a passing attempt `i + 1` ends
the loop with `i + 1` invocations and `i` sleeps. -/
theorem credSucc (ctx : Context) (cn : String) (ma i : Nat)
    (h : credOk ctx cn i = true) :
    getCredentialsGo ctx cn ma i (credTrace cn i i) =
      ({ succeeded := true, error := none }, credTrace cn (i + 1) i) := by
  have hl : (credTrace cn i i).calls.length = i := by simp [credTrace]
  rw [getCredentialsGo_succ ctx cn ma i (credTrace cn i i) (by rw [hl]; exact h)]
  congr 1
  simp [credTrace, List.replicate_succ']

/-- Exhaustion lemma over canonical traces: a failed attempt `i + 1` with
no attempts left ends the loop with `i + 1` invocations and `i` sleeps,
carrying the last answer's stderr. -/
theorem credStop (ctx : Context) (cn : String) (ma i : Nat)
    (h : credOk ctx cn i = false) (hge : ¬ i + 1 < ma) :
    getCredentialsGo ctx cn ma i (credTrace cn i i) =
      ({ succeeded := false,
         error := some (match ctx.shell.run (credCmd cn) i with
                        | some r => r.stderr
                        | none => "Unable to invoke gcloud CLI") },
       credTrace cn (i + 1) i) := by
  have hl : (credTrace cn i i).calls.length = i := by simp [credTrace]
  rw [getCredentialsGo_stop ctx cn ma i (credTrace cn i i) (by rw [hl]; exact h) hge]
  rw [hl]
  congr 1
  simp [credTrace, List.replicate_succ']

/-- First success on attempt `k` (of max 5): the loop returns success
after exactly `k` invocations and `k - 1` sleeps. -/
theorem credRunSucc (ctx : Context) (cn : String) (k : Nat)
    (h1 : 1 ≤ k) (h5 : k ≤ 5)
    (hfail : ∀ i, i < k - 1 → credOk ctx cn i = false)
    (hok : credOk ctx cn (k - 1) = true) :
    getCredentials ctx cn 5 emptyTrace =
      ({ succeeded := true, error := none }, credTrace cn k (k - 1)) := by
  have he : emptyTrace = credTrace cn 0 0 := by simp [emptyTrace, credTrace]
  rw [getCredentials, he]
  interval_cases k
  · exact credSucc ctx cn 5 0 hok
  · rw [credStep ctx cn 5 0 (hfail 0 (by norm_num)) (by norm_num)]
    exact credSucc ctx cn 5 1 hok
  · rw [credStep ctx cn 5 0 (hfail 0 (by norm_num)) (by norm_num),
      credStep ctx cn 5 1 (hfail 1 (by norm_num)) (by norm_num)]
    exact credSucc ctx cn 5 2 hok
  · rw [credStep ctx cn 5 0 (hfail 0 (by norm_num)) (by norm_num),
      credStep ctx cn 5 1 (hfail 1 (by norm_num)) (by norm_num),
      credStep ctx cn 5 2 (hfail 2 (by norm_num)) (by norm_num)]
    exact credSucc ctx cn 5 3 hok
  · rw [credStep ctx cn 5 0 (hfail 0 (by norm_num)) (by norm_num),
      credStep ctx cn 5 1 (hfail 1 (by norm_num)) (by norm_num),
      credStep ctx cn 5 2 (hfail 2 (by norm_num)) (by norm_num),
      credStep ctx cn 5 3 (hfail 3 (by norm_num)) (by norm_num)]
    exact credSucc ctx cn 5 4 hok

/-- All 5 attempts fail: the loop returns failure after exactly 5
invocations and 4 sleeps, carrying the last attempt's stderr (or the
fixed message when the subprocess result is absent). -/
theorem credRunFail (ctx : Context) (cn : String)
    (hfail : ∀ i, i < 5 → credOk ctx cn i = false) :
    getCredentials ctx cn 5 emptyTrace =
      ({ succeeded := false,
         error := some (match ctx.shell.run (credCmd cn) 4 with
                        | some r => r.stderr
                        | none => "Unable to invoke gcloud CLI") },
       credTrace cn 5 4) := by
  have he : emptyTrace = credTrace cn 0 0 := by simp [emptyTrace, credTrace]
  rw [getCredentials, he,
    credStep ctx cn 5 0 (hfail 0 (by norm_num)) (by norm_num),
    credStep ctx cn 5 1 (hfail 1 (by norm_num)) (by norm_num),
    credStep ctx cn 5 2 (hfail 2 (by norm_num)) (by norm_num),
    credStep ctx cn 5 3 (hfail 3 (by norm_num)) (by norm_num)]
  exact credStop ctx cn 5 4 (hfail 4 (by norm_num)) (by norm_num)

/-- C1: for maxAttempts 5, if the get-credentials answer first passes on
attempt k ≤ 5 the loop returns success after exactly k invocations and
k−1 sleeps of 15000 ms; if all 5 attempts fail it returns failure after
exactly 5 invocations and 4 sleeps, carrying the last attempt's stderr or
the fixed "Unable to invoke gcloud CLI" message when the subprocess
result is absent; and in every case the loop ends either in success or
with the full 5 invocations. -/
theorem getCredentials_retry_contract (ctx : Context) (cn : String) :
    (∀ k, 1 ≤ k → k ≤ 5 →
      (∀ i, i < k - 1 → credOk ctx cn i = false) →
      credOk ctx cn (k - 1) = true →
      getCredentials ctx cn 5 emptyTrace =
        ({ succeeded := true, error := none },
         { calls := List.replicate k (credCmd cn),
           sleeps := List.replicate (k - 1) 15000 })) ∧
    ((∀ i, i < 5 → credOk ctx cn i = false) →
      getCredentials ctx cn 5 emptyTrace =
        ({ succeeded := false,
           error := some (match ctx.shell.run (credCmd cn) 4 with
                          | some r => r.stderr
                          | none => "Unable to invoke gcloud CLI") },
         { calls := List.replicate 5 (credCmd cn),
           sleeps := List.replicate 4 15000 })) ∧
    ((getCredentials ctx cn 5 emptyTrace).1.succeeded = true ∨
      (getCredentials ctx cn 5 emptyTrace).2.calls =
        List.replicate 5 (credCmd cn)) := by
  refine ⟨?_, ?_, ?_⟩
  · intro k h1 h5 hfail hok
    rw [credRunSucc ctx cn k h1 h5 hfail hok]
    rfl
  · intro hfail
    rw [credRunFail ctx cn hfail]
    rfl
  · by_cases h0 : credOk ctx cn 0 = true
    · left
      rw [credRunSucc ctx cn 1 (by norm_num) (by norm_num) (by omega) h0]
    · rw [Bool.not_eq_true] at h0
      by_cases h1 : credOk ctx cn 1 = true
      · left
        rw [credRunSucc ctx cn 2 (by norm_num) (by norm_num)
          (by intro i hi; interval_cases i; exact h0) h1]
      · rw [Bool.not_eq_true] at h1
        by_cases h2 : credOk ctx cn 2 = true
        · left
          rw [credRunSucc ctx cn 3 (by norm_num) (by norm_num)
            (by intro i hi; interval_cases i <;> assumption) h2]
        · rw [Bool.not_eq_true] at h2
          by_cases h3 : credOk ctx cn 3 = true
          · left
            rw [credRunSucc ctx cn 4 (by norm_num) (by norm_num)
              (by intro i hi; interval_cases i <;> assumption) h3]
          · rw [Bool.not_eq_true] at h3
            by_cases h4 : credOk ctx cn 4 = true
            · left
              rw [credRunSucc ctx cn 5 (by norm_num) (by norm_num)
                (by intro i hi; interval_cases i <;> assumption) h4]
            · rw [Bool.not_eq_true] at h4
              right
              rw [credRunFail ctx cn
                (by intro i hi; interval_cases i <;> assumption)]
              rfl

/-- Witness for C1: a shell failing twice then passing yields success
after 3 invocations and 2 sleeps; an always-failing shell yields failure
after 5 invocations and 4 sleeps carrying the final stderr "boom". -/
theorem getCredentials_retry_contract_witness :
    getCredentials (seqCtx [some srBoom, some srBoom, some srPass]) "c" 5 emptyTrace =
      ({ succeeded := true, error := none },
       { calls := List.replicate 3 (credCmd "c"),
         sleeps := List.replicate 2 15000 }) ∧
    getCredentials (constCtx (some srBoom)) "c" 5 emptyTrace =
      ({ succeeded := false, error := some "boom" },
       { calls := List.replicate 5 (credCmd "c"),
         sleeps := List.replicate 4 15000 }) :=
  ⟨(getCredentials_retry_contract (seqCtx [some srBoom, some srBoom, some srPass]) "c").1
      3 (by decide) (by decide) (by decide) (by decide),
   (getCredentials_retry_contract (constCtx (some srBoom)) "c").2.1 (by decide)⟩
